import Mathlib

/-!
Verification development for the location-registry core of forecasttools-py
(`src/forecasttools/recode_locations.py` and `src/forecasttools/constants.py`).

Dataframes are embedded row-major with string cells; the fallible operations
return `Except LocError`, with a structured error type whose constructors carry
exactly the dynamic data interpolated into the corresponding Python exception
messages.
-/

/-- A jurisdiction record of the location table, with the four columns of the
reference data asset: a hubverse location code, a two-letter abbreviation,
a full English name, and a state flag. -/
structure LocationRecord where
  location_code : String
  short_name : String
  long_name : String
  is_state : Bool
deriving DecidableEq, Repr

/-- A Polars dataframe, modelled as a list of column names together with
row-major cell data (every cell a string). -/
structure DataFrame where
  cols : List String
  rows : List (List String)
deriving DecidableEq, Repr

/-- Number of rows, as in `df.height`. -/
def DataFrame.height (df : DataFrame) : Nat := df.rows.length

/-- Polars `df.is_empty()`: true when the dataframe has zero rows. -/
def DataFrame.is_empty (df : DataFrame) : Bool := df.height == 0

/-- Model of Python `str.lower()` (ASCII case folding on each character). -/
def pyLower (s : String) : String := String.mk (s.data.map Char.toLower)

/-- Cell of a row at column position `i` (missing cells read as `""`). -/
def cellAt (i : Nat) (r : List String) : String := r.getD i ""

/-- Position of the column named `c` in a header list (first match). -/
def colIdx (cols : List String) (c : String) : Option Nat :=
  match cols with
  | [] => none
  | x :: xs => if x == c then some 0 else (colIdx xs c).map (· + 1)

/-- Rewrite the cell at column position `i` of a row with `f`, leaving all
other cells in place. -/
def applyAt : Nat → (String → String) → List String → List String
  | _, _, [] => []
  | 0, f, x :: xs => f x :: xs
  | n + 1, f, x :: xs => x :: applyAt n f xs

/-- Polars `Series.replace(old=..., new=...)` on one value: a value equal to
`old[i]` becomes `new[i]` (first match wins); any other value is unchanged. -/
def replaceVal (old new : List String) (v : String) : String :=
  match old.findIdx? (· == v) with
  | some i => new.getD i v
  | none => v

/-- Model of Python `set(xs).difference(set(valid))`, as a duplicate-free
list of the elements of `xs` that are not in `valid`. -/
def pySetDiff (xs valid : List String) : List String :=
  xs.dedup.filter (fun v => !(valid.contains v))

/-- The column of the dataframe named `c`, as in `df[c].to_list()`
(empty when no column has that name). -/
def DataFrame.getColumn (df : DataFrame) (c : String) : List String :=
  match colIdx df.cols c with
  | some i => df.rows.map (cellAt i)
  | none => []

/-- Polars `df.with_columns(pl.col(c).replace(old=old, new=new))`: a new
dataframe in which every value of column `c` has been replaced via the
`old`/`new` mapping and everything else is unchanged. -/
def DataFrame.replaceColumn (df : DataFrame) (c : String) (old new : List String) :
    DataFrame :=
  match colIdx df.cols c with
  | some i => ⟨df.cols, df.rows.map (applyAt i (replaceVal old new))⟩
  | none => df

/-- Polars `df.filter(pl.col(c).is_in(valid))`: keep exactly the rows whose
value in column `c` belongs to `valid`. -/
def DataFrame.filterRows (df : DataFrame) (c : String) (valid : List String) :
    DataFrame :=
  match colIdx df.cols c with
  | some i => ⟨df.cols, df.rows.filter (fun r => valid.contains (cellAt i r))⟩
  | none => df

/-- Lexicographic strict comparison of character lists by code point. -/
def chLt : List Char → List Char → Bool
  | [], [] => false
  | [], _ :: _ => true
  | _ :: _, [] => false
  | a :: as, b :: bs =>
    if a.toNat < b.toNat then true
    else if b.toNat < a.toNat then false
    else chLt as bs

/-- Lexicographic `a ≤ b` on strings, by code point. -/
def strLe (a b : String) : Bool := !(chLt b.data a.data)

/-- Insert a record into a list sorted by `location_code` (ascending). -/
def insertByCode (r : LocationRecord) : List LocationRecord → List LocationRecord
  | [] => [r]
  | x :: xs =>
    if strLe r.location_code x.location_code then r :: x :: xs
    else x :: insertByCode r xs

/-- Stable sort by `location_code` ascending, as in `.sort("location_code")`. -/
def sortByCode : List LocationRecord → List LocationRecord
  | [] => []
  | x :: xs => insertByCode x (sortByCode xs)

/-- Modelled from the spec: the `location_table.parquet` data asset is bundled
with the package rather than kept under `src/`, so its rows are reconstructed
here from the spec's data model (§3: one national record with
`location_code = "US"`, exactly 50 state records, Census jurisdictions with
DC and territory records carrying `is_state = false`) and the constants
`DC_FIPS = "11"`, `PR_FIPS = "72"` of `constants.py`. Census state FIPS
codes, two-letter postal abbreviations and English names are used verbatim. -/
def location_table : List LocationRecord :=
  [⟨"US", "US", "United States", false⟩,
   ⟨"01", "AL", "Alabama", true⟩,
   ⟨"02", "AK", "Alaska", true⟩,
   ⟨"04", "AZ", "Arizona", true⟩,
   ⟨"05", "AR", "Arkansas", true⟩,
   ⟨"06", "CA", "California", true⟩,
   ⟨"08", "CO", "Colorado", true⟩,
   ⟨"09", "CT", "Connecticut", true⟩,
   ⟨"10", "DE", "Delaware", true⟩,
   ⟨"11", "DC", "District of Columbia", false⟩,
   ⟨"12", "FL", "Florida", true⟩,
   ⟨"13", "GA", "Georgia", true⟩,
   ⟨"15", "HI", "Hawaii", true⟩,
   ⟨"16", "ID", "Idaho", true⟩,
   ⟨"17", "IL", "Illinois", true⟩,
   ⟨"18", "IN", "Indiana", true⟩,
   ⟨"19", "IA", "Iowa", true⟩,
   ⟨"20", "KS", "Kansas", true⟩,
   ⟨"21", "KY", "Kentucky", true⟩,
   ⟨"22", "LA", "Louisiana", true⟩,
   ⟨"23", "ME", "Maine", true⟩,
   ⟨"24", "MD", "Maryland", true⟩,
   ⟨"25", "MA", "Massachusetts", true⟩,
   ⟨"26", "MI", "Michigan", true⟩,
   ⟨"27", "MN", "Minnesota", true⟩,
   ⟨"28", "MS", "Mississippi", true⟩,
   ⟨"29", "MO", "Missouri", true⟩,
   ⟨"30", "MT", "Montana", true⟩,
   ⟨"31", "NE", "Nebraska", true⟩,
   ⟨"32", "NV", "Nevada", true⟩,
   ⟨"33", "NH", "New Hampshire", true⟩,
   ⟨"34", "NJ", "New Jersey", true⟩,
   ⟨"35", "NM", "New Mexico", true⟩,
   ⟨"36", "NY", "New York", true⟩,
   ⟨"37", "NC", "North Carolina", true⟩,
   ⟨"38", "ND", "North Dakota", true⟩,
   ⟨"39", "OH", "Ohio", true⟩,
   ⟨"40", "OK", "Oklahoma", true⟩,
   ⟨"41", "OR", "Oregon", true⟩,
   ⟨"42", "PA", "Pennsylvania", true⟩,
   ⟨"44", "RI", "Rhode Island", true⟩,
   ⟨"45", "SC", "South Carolina", true⟩,
   ⟨"46", "SD", "South Dakota", true⟩,
   ⟨"47", "TN", "Tennessee", true⟩,
   ⟨"48", "TX", "Texas", true⟩,
   ⟨"49", "UT", "Utah", true⟩,
   ⟨"50", "VT", "Vermont", true⟩,
   ⟨"51", "VA", "Virginia", true⟩,
   ⟨"53", "WA", "Washington", true⟩,
   ⟨"54", "WV", "West Virginia", true⟩,
   ⟨"55", "WI", "Wisconsin", true⟩,
   ⟨"56", "WY", "Wyoming", true⟩,
   ⟨"60", "AS", "American Samoa", false⟩,
   ⟨"66", "GU", "Guam", false⟩,
   ⟨"69", "MP", "Northern Mariana Islands", false⟩,
   ⟨"72", "PR", "Puerto Rico", false⟩,
   ⟨"74", "UM", "U.S. Minor Outlying Islands", false⟩,
   ⟨"78", "VI", "Virgin Islands", false⟩]

/-- `ALL_LOCATION_CODES`: every location code of the table, in table order. -/
def ALL_LOCATION_CODES : List String := location_table.map (·.location_code)

/-- `DC_FIPS` constant. -/
def DC_FIPS : String := "11"

/-- `PR_FIPS` constant. -/
def PR_FIPS : String := "72"

/-- `_build_hub_locations()`: US first, then the 50 states plus DC plus PR
sorted by FIPS code. -/
def build_hub_locations : List String :=
  "US" ::
    ((sortByCode (location_table.filter
        (fun r => r.is_state || r.location_code == DC_FIPS
          || r.location_code == PR_FIPS))).map (·.location_code))

/-- `FLUSIGHT_LOCATIONS` constant. -/
def FLUSIGHT_LOCATIONS : List String := build_hub_locations

/-- `COVID_HUB_LOCATIONS` constant. -/
def COVID_HUB_LOCATIONS : List String := build_hub_locations

/-- `RSV_HUB_LOCATIONS` constant. -/
def RSV_HUB_LOCATIONS : List String := build_hub_locations

/-- `HUB_LOCATIONS` dict, as an association list in insertion order. -/
def HUB_LOCATIONS : List (String × List String) :=
  [("flusight", FLUSIGHT_LOCATIONS),
   ("covid", COVID_HUB_LOCATIONS),
   ("rsv", RSV_HUB_LOCATIONS)]

/-- Structured rendering of the exceptions raised by the recoding module;
each constructor carries the dynamic values interpolated into the Python
message (offending column, offending values, list of valid choices). -/
inductive LocError where
  | emptyDataFrame : LocError
  | missingColumn (col : String) (cols : List String) : LocError
  | invalidLocationValues (col : String) (offending : List String) : LocError
  | unknownFormat (fmt : String) (valid : List String) : LocError
  | invalidFormat (fmt : String) (valid : List String) : LocError
  | emptyLocationVector : LocError
  | unknownHub (hub : String) (valid : List String) : LocError
deriving DecidableEq, Repr

/-- Decidable equality of `Except` results, for concrete evaluation. -/
instance {ε α : Type} [DecidableEq ε] [DecidableEq α] : DecidableEq (Except ε α) :=
  fun x y =>
    match x, y with
    | .ok a, .ok b =>
      if h : a = b then isTrue (by rw [h]) else isFalse (by simp [h])
    | .ok _, .error _ => isFalse (by simp)
    | .error _, .ok _ => isFalse (by simp)
    | .error e, .error f =>
      if h : e = f then isTrue (by rw [h]) else isFalse (by simp [h])

/-- `loc_abbr_to_hubverse_code(df, location_col)`: validates non-emptiness,
column presence and that every value of the column is a known two-letter
abbreviation, then rewrites the column from abbreviations to hubverse
location codes. -/
def loc_abbr_to_hubverse_code (df : DataFrame) (location_col : String) :
    Except LocError DataFrame :=
  if df.is_empty then .error .emptyDataFrame
  else if !(df.cols.contains location_col) then
    .error (.missingColumn location_col df.cols)
  else
    let location_values := df.getColumn location_col
    let valid_values := location_table.map (·.short_name)
    let difference := pySetDiff location_values valid_values
    if difference.isEmpty then
      .ok (df.replaceColumn location_col
        (location_table.map (·.short_name))
        (location_table.map (·.location_code)))
    else .error (.invalidLocationValues location_col difference)

/-- `loc_hubverse_code_to_abbr(df, location_col)`: validates non-emptiness,
column presence and that every value of the column is a known hubverse
location code, then rewrites the column from codes to abbreviations. -/
def loc_hubverse_code_to_abbr (df : DataFrame) (location_col : String) :
    Except LocError DataFrame :=
  if df.is_empty then .error .emptyDataFrame
  else if !(df.cols.contains location_col) then
    .error (.missingColumn location_col df.cols)
  else
    let location_values := df.getColumn location_col
    let valid_values := location_table.map (·.location_code)
    let difference := pySetDiff location_values valid_values
    if difference.isEmpty then
      .ok (df.replaceColumn location_col
        (location_table.map (·.location_code))
        (location_table.map (·.short_name)))
    else .error (.invalidLocationValues location_col difference)

/-- The `col_dict` of `to_location_table_column`. -/
def col_dict : List (String × String) :=
  [("abbr", "short_name"), ("hubverse", "location_code"),
   ("long_name", "long_name")]

/-- `to_location_table_column(location_format)`: maps a format tag to the
location-table column name, raising a `KeyError` that names the tag and the
dict's keys for an unrecognized tag. -/
def to_location_table_column (location_format : String) : Except LocError String :=
  match col_dict.find? (·.1 == location_format) with
  | some p => .ok p.2
  | none => .error (.unknownFormat location_format (col_dict.map (·.1)))

/-- Value of a location record in the named location-table column
(the boolean column rendered as a string). -/
def recordField (r : LocationRecord) (c : String) : String :=
  if c == "location_code" then r.location_code
  else if c == "short_name" then r.short_name
  else if c == "long_name" then r.long_name
  else if r.is_state then "true" else "false"

/-- Column names of the location table, in order. -/
def tableColumns : List String :=
  ["location_code", "short_name", "long_name", "is_state"]

/-- The location table as a dataframe. -/
def locationTableDF : DataFrame :=
  ⟨tableColumns, location_table.map (fun r => tableColumns.map (recordField r))⟩

/-- Polars `left.join(right, on=key, how="inner")`: for every left row in
order, each right row with an equal key value, the key column kept from the
left side and dropped from the right side. -/
def innerJoin (left right : DataFrame) (key : String) : DataFrame :=
  match colIdx left.cols key, colIdx right.cols key with
  | some li, some ri =>
    ⟨left.cols ++ right.cols.eraseIdx ri,
     left.rows.flatMap (fun lr =>
       (right.rows.filter (fun rr => cellAt ri rr == cellAt li lr)).map
         (fun rr => lr ++ rr.eraseIdx ri))⟩
  | _, _ => left

/-- The recognized location formats of `location_lookup`. -/
def valid_formats : List String := ["abbr", "hubverse", "long_name"]

/-- `location_lookup(location_vector, location_format)`: builds a one-column
dataframe from the vector and inner-joins it with the location table on the
column that the format resolves to. -/
def location_lookup (location_vector : List String) (location_format : String) :
    Except LocError DataFrame :=
  if !(valid_formats.contains location_format) then
    .error (.invalidFormat location_format valid_formats)
  else if location_vector.isEmpty then .error .emptyLocationVector
  else
    match to_location_table_column location_format with
    | .error e => .error e
    | .ok join_key =>
      .ok (innerJoin ⟨[join_key], location_vector.map (fun v => [v])⟩
        locationTableDF join_key)

/-- `get_hub_locations(hub)`: case-insensitive lookup of the hub's location
list in `HUB_LOCATIONS`, returning a copy of the stored list; unknown hubs
raise an error naming the hub and the valid hub names. -/
def get_hub_locations (hub : String) : Except LocError (List String) :=
  match HUB_LOCATIONS.find? (·.1 == pyLower hub) with
  | some p => .ok p.2
  | none => .error (.unknownHub hub (HUB_LOCATIONS.map (·.1)))

/-- `filter_to_hub_locations(df, hub, location_col)`: validates non-emptiness
and column presence, resolves the hub's location list, and keeps exactly the
rows whose location value belongs to it. -/
def filter_to_hub_locations (df : DataFrame) (hub : String) (location_col : String) :
    Except LocError DataFrame :=
  if df.is_empty then .error .emptyDataFrame
  else if !(df.cols.contains location_col) then
    .error (.missingColumn location_col df.cols)
  else
    match get_hub_locations hub with
    | .error e => .error e
    | .ok valid_locations => .ok (df.filterRows location_col valid_locations)

/-- The header of a `location_lookup` result: the join key first, then the
remaining location-table columns in table order. -/
def lookupResultCols (jk : String) : List String :=
  jk :: tableColumns.filter (fun c => !(c == jk))

/-- One matched row of a `location_lookup` result: the looked-up identifier
followed by the matching record's remaining fields in table order. -/
def lookupRow (jk loc : String) (r : LocationRecord) : List String :=
  loc :: (tableColumns.filter (fun c => !(c == jk))).map (recordField r)

/-! Helper lemmas about the dataframe primitives. -/

/-- A name that occurs in a header list has a column position. -/
lemma colIdx_of_mem {cols : List String} {c : String} (h : c ∈ cols) :
    ∃ i, colIdx cols c = some i := by
  induction cols with
  | nil => cases h
  | cons x xs ih =>
    by_cases hx : x == c
    · exact ⟨0, by simp [colIdx, hx]⟩
    · have hc : c ∈ xs := by
        rcases List.mem_cons.mp h with h1 | h1
        · exact absurd (by simp [h1] : x == c) hx
        · exact h1
      obtain ⟨i, hi⟩ := ih hc
      exact ⟨i + 1, by simp [colIdx, hx, hi]⟩

/-- The header entry at a resolved column position is the requested name. -/
lemma colIdx_getD {cols : List String} {c : String} {i : Nat}
    (h : colIdx cols c = some i) : cols.getD i "" = c := by
  induction cols generalizing i with
  | nil => simp [colIdx] at h
  | cons x xs ih =>
    by_cases hx : x == c
    · simp [colIdx, hx] at h
      subst h
      simpa using eq_of_beq hx
    · simp [colIdx, hx] at h
      rcases h with ⟨j, hj, hji⟩
      subst hji
      simpa using ih hj

/-- `applyAt` preserves row length. -/
lemma length_applyAt (i : Nat) (f : String → String) (r : List String) :
    (applyAt i f r).length = r.length := by
  induction r generalizing i with
  | nil => cases i <;> rfl
  | cons x xs ih =>
    cases i with
    | zero => rfl
    | succ n => simpa [applyAt] using ih n

/-- Reading the rewritten cell gives the rewritten value (in-range case). -/
lemma cellAt_applyAt_self {i : Nat} {r : List String} (f : String → String)
    (h : i < r.length) : cellAt i (applyAt i f r) = f (cellAt i r) := by
  induction r generalizing i with
  | nil => cases h
  | cons x xs ih =>
    cases i with
    | zero => rfl
    | succ n =>
      have hn : n < xs.length := by simpa using h
      simpa [applyAt, cellAt] using ih hn

/-- Reading any other cell of a rewritten row is unchanged. -/
lemma cellAt_applyAt_ne {i j : Nat} (hne : j ≠ i) (f : String → String)
    (r : List String) : cellAt j (applyAt i f r) = cellAt j r := by
  induction r generalizing i j with
  | nil => cases i <;> rfl
  | cons x xs ih =>
    cases i with
    | zero =>
      cases j with
      | zero => exact absurd rfl hne
      | succ m => rfl
    | succ n =>
      cases j with
      | zero => rfl
      | succ m =>
        have : m ≠ n := fun h => hne (by rw [h])
        simpa [applyAt, cellAt] using ih this

/-- Two successive rewrites of the same cell compose. -/
lemma applyAt_applyAt (i : Nat) (f g : String → String) (r : List String) :
    applyAt i g (applyAt i f r) = applyAt i (fun x => g (f x)) r := by
  induction r generalizing i with
  | nil => cases i <;> rfl
  | cons x xs ih =>
    cases i with
    | zero => rfl
    | succ n => simpa [applyAt] using ih n

/-- A rewrite that fixes the cell value fixes the row. -/
lemma applyAt_eq_self {i : Nat} {f : String → String} {r : List String}
    (h : f (cellAt i r) = cellAt i r) : applyAt i f r = r := by
  induction r generalizing i with
  | nil => cases i <;> rfl
  | cons x xs ih =>
    cases i with
    | zero => simpa [applyAt, cellAt] using h
    | succ n =>
      have := ih (i := n) (by simpa [cellAt] using h)
      simp [applyAt, this]

/-- Membership in the modelled Python set difference. -/
lemma mem_pySetDiff {w : String} {xs valid : List String} :
    w ∈ pySetDiff xs valid ↔ w ∈ xs ∧ valid.contains w = false := by
  constructor
  · intro h
    have h' := List.mem_filter.mp h
    refine ⟨List.mem_dedup.mp h'.1, ?_⟩
    simpa using h'.2
  · intro ⟨h1, h2⟩
    exact List.mem_filter.mpr ⟨List.mem_dedup.mpr h1, by rw [h2]; rfl⟩

/-- The set difference is empty when every value is valid. -/
lemma pySetDiff_eq_nil {xs valid : List String}
    (h : ∀ v ∈ xs, valid.contains v = true) : pySetDiff xs valid = [] := by
  apply List.eq_nil_iff_forall_not_mem.mpr
  intro w hw
  have := mem_pySetDiff.mp hw
  rw [h w this.1] at this
  exact Bool.noConfusion this.2

/-- `List.contains` agrees with membership. -/
lemma contains_iff_mem {l : List String} {a : String} :
    l.contains a = true ↔ a ∈ l := by
  simp [List.contains]

/-- A failed `List.contains` test means non-membership. -/
lemma contains_eq_false_iff {l : List String} {a : String} :
    l.contains a = false ↔ a ∉ l := by
  rw [← contains_iff_mem]
  cases l.contains a <;> simp

/-- Success shape of `loc_abbr_to_hubverse_code`: when the checks pass it
returns the column-replaced copy. -/
lemma loc_abbr_ok {df : DataFrame} {c : String} (hne : df.is_empty = false)
    (hc : c ∈ df.cols)
    (hd : pySetDiff (df.getColumn c) (location_table.map (·.short_name)) = []) :
    loc_abbr_to_hubverse_code df c =
      .ok (df.replaceColumn c (location_table.map (·.short_name))
        (location_table.map (·.location_code))) := by
  have hcc : df.cols.contains c = true := contains_iff_mem.mpr hc
  simp [loc_abbr_to_hubverse_code, hne, hcc, hc, hd]

/-- Success shape of `loc_hubverse_code_to_abbr`. -/
lemma loc_code_ok {df : DataFrame} {c : String} (hne : df.is_empty = false)
    (hc : c ∈ df.cols)
    (hd : pySetDiff (df.getColumn c) (location_table.map (·.location_code)) = []) :
    loc_hubverse_code_to_abbr df c =
      .ok (df.replaceColumn c (location_table.map (·.location_code))
        (location_table.map (·.short_name))) := by
  have hcc : df.cols.contains c = true := contains_iff_mem.mpr hc
  simp [loc_hubverse_code_to_abbr, hne, hcc, hc, hd]

/-- Inversion: a successful `loc_abbr_to_hubverse_code` result is exactly the
column-replaced copy. -/
lemma loc_abbr_ok_inv {df df2 : DataFrame} {c : String}
    (h : loc_abbr_to_hubverse_code df c = .ok df2) :
    df2 = df.replaceColumn c (location_table.map (·.short_name))
      (location_table.map (·.location_code)) := by
  simp only [loc_abbr_to_hubverse_code] at h
  split at h
  · exact absurd h (by simp)
  · split at h
    · exact absurd h (by simp)
    · split at h
      · exact (by simpa using h.symm)
      · exact absurd h (by simp)

/-- Inversion: a successful `loc_hubverse_code_to_abbr` result is exactly the
column-replaced copy. -/
lemma loc_code_ok_inv {df df2 : DataFrame} {c : String}
    (h : loc_hubverse_code_to_abbr df c = .ok df2) :
    df2 = df.replaceColumn c (location_table.map (·.location_code))
      (location_table.map (·.short_name)) := by
  simp only [loc_hubverse_code_to_abbr] at h
  split at h
  · exact absurd h (by simp)
  · split at h
    · exact absurd h (by simp)
    · split at h
      · exact (by simpa using h.symm)
      · exact absurd h (by simp)

/-- `replaceColumn` keeps the header. -/
lemma replaceColumn_cols (df : DataFrame) (c : String) (old new : List String) :
    (df.replaceColumn c old new).cols = df.cols := by
  unfold DataFrame.replaceColumn
  cases colIdx df.cols c <;> rfl

/-- `replaceColumn` keeps the row count. -/
lemma replaceColumn_height (df : DataFrame) (c : String) (old new : List String) :
    (df.replaceColumn c old new).height = df.height := by
  unfold DataFrame.replaceColumn
  cases colIdx df.cols c <;> simp [DataFrame.height]

/-- `replaceColumn` leaves every other column unchanged. -/
lemma replaceColumn_getColumn_ne (df : DataFrame) {c c' : String}
    (old new : List String) (hne : c' ≠ c) :
    (df.replaceColumn c old new).getColumn c' = df.getColumn c' := by
  unfold DataFrame.replaceColumn DataFrame.getColumn
  cases hi : colIdx df.cols c with
  | none => rfl
  | some i =>
    simp only
    cases hj : colIdx df.cols c' with
    | none => rfl
    | some j =>
      simp only [List.map_map]
      have hji : j ≠ i := by
        intro hEq
        exact hne (by rw [← colIdx_getD hj, hEq, colIdx_getD hi])
      exact List.map_congr_left (fun r _ => cellAt_applyAt_ne hji _ r)

/-- The hub keys of `HUB_LOCATIONS`, in insertion order. -/
lemma hub_keys : HUB_LOCATIONS.map (·.1) = ["flusight", "covid", "rsv"] := rfl

/-- Successful hub lookup: any spelling whose lowercasing is a known hub name
resolves to the shared membership list. -/
lemma get_hub_ok {hub : String} (h : pyLower hub ∈ ["flusight", "covid", "rsv"]) :
    get_hub_locations hub = .ok build_hub_locations := by
  simp only [List.mem_cons, List.not_mem_nil, or_false] at h
  rcases h with h | h | h <;>
    simp [get_hub_locations, h, HUB_LOCATIONS, FLUSIGHT_LOCATIONS,
      COVID_HUB_LOCATIONS, RSV_HUB_LOCATIONS]

/-- Failed hub lookup: an unrecognized lowercased name raises the unknown-hub
error naming the hub and the valid hub names. -/
lemma get_hub_err {hub : String}
    (h : pyLower hub ∉ ["flusight", "covid", "rsv"]) :
    get_hub_locations hub =
      .error (.unknownHub hub ["flusight", "covid", "rsv"]) := by
  simp only [List.mem_cons, List.not_mem_nil, or_false, not_or] at h
  obtain ⟨h1, h2, h3⟩ := h
  simp [get_hub_locations, HUB_LOCATIONS, Ne.symm h1, Ne.symm h2, Ne.symm h3]

/-- Claim C4: `to_location_table_column` maps exactly the three format tags
"abbr", "hubverse", "long_name" to the columns `short_name`, `location_code`,
`long_name` respectively, and any other tag fails with an unknown-format
error naming the offending tag and listing the three valid tags. -/
theorem to_location_table_column_spec :
    (to_location_table_column "abbr" = .ok "short_name" ∧
     to_location_table_column "hubverse" = .ok "location_code" ∧
     to_location_table_column "long_name" = .ok "long_name") ∧
    ∀ s, s ∉ ["abbr", "hubverse", "long_name"] →
      to_location_table_column s =
        .error (.unknownFormat s ["abbr", "hubverse", "long_name"]) := by
  refine ⟨⟨by decide, by decide, by decide⟩, ?_⟩
  intro s hs
  simp only [List.mem_cons, List.not_mem_nil, or_false, not_or] at hs
  obtain ⟨h1, h2, h3⟩ := hs
  simp [to_location_table_column, col_dict, Ne.symm h1, Ne.symm h2, Ne.symm h3]

/-- Witness for C4 at the spec's scenario input "bad_format". -/
theorem to_location_table_column_spec_witness :
    "bad_format" ∉ ["abbr", "hubverse", "long_name"] ∧
    to_location_table_column "bad_format" =
      .error (.unknownFormat "bad_format" ["abbr", "hubverse", "long_name"]) :=
  ⟨by decide, to_location_table_column_spec.2 "bad_format" (by decide)⟩

/-- Claim C2: for every hub name among "flusight", "covid" and "rsv",
`get_hub_locations` succeeds with a list of exactly 53 codes, headed by
"US", without duplicates, every entry a location-table code, and with the
inclusion in `ALL_LOCATION_CODES` strict. -/
theorem hub_locations_well_formed :
    ∀ hub ∈ ["flusight", "covid", "rsv"],
      ∃ l, get_hub_locations hub = .ok l ∧ l.length = 53 ∧
        l.head? = some "US" ∧ l.Nodup ∧
        (∀ c ∈ l, c ∈ ALL_LOCATION_CODES) ∧
        ∃ c ∈ ALL_LOCATION_CODES, c ∉ l := by
  intro hub hhub
  have hok : get_hub_locations hub = .ok build_hub_locations := by
    simp only [List.mem_cons, List.not_mem_nil, or_false] at hhub
    rcases hhub with rfl | rfl | rfl <;> decide
  exact ⟨build_hub_locations, hok, by decide, by decide, by decide, by decide,
    ⟨"60", by decide, by decide⟩⟩

/-- Witness for C2 at hub "flusight". -/
theorem hub_locations_well_formed_witness :
    "flusight" ∈ ["flusight", "covid", "rsv"] ∧
    ∃ l, get_hub_locations "flusight" = .ok l ∧ l.length = 53 ∧
      l.head? = some "US" ∧ l.Nodup ∧
      (∀ c ∈ l, c ∈ ALL_LOCATION_CODES) ∧
      ∃ c ∈ ALL_LOCATION_CODES, c ∉ l :=
  ⟨by decide, hub_locations_well_formed "flusight" (by decide)⟩

/-- Claim C9: `get_hub_locations` matches the hub case-insensitively, returns
the hub's membership list on success (with the lowercased spelling giving the
same result), and fails with an unknown-hub error naming the hub and the
valid hub names whenever the lowercased name is not a known hub. -/
theorem get_hub_locations_case_and_errors :
    ∀ hub : String,
      (pyLower hub ∈ ["flusight", "covid", "rsv"] →
        get_hub_locations hub = .ok build_hub_locations ∧
        get_hub_locations (pyLower hub) = get_hub_locations hub) ∧
      (pyLower hub ∉ ["flusight", "covid", "rsv"] →
        get_hub_locations hub =
          .error (.unknownHub hub ["flusight", "covid", "rsv"])) := by
  intro hub
  refine ⟨?_, get_hub_err⟩
  intro h
  refine ⟨get_hub_ok h, ?_⟩
  have h2 : pyLower (pyLower hub) = pyLower hub := by
    simp only [List.mem_cons, List.not_mem_nil, or_false] at h
    rcases h with h | h | h <;> rw [h] <;> decide
  rw [get_hub_ok h, get_hub_ok (by rw [h2]; exact h)]

/-- Witness for C9 at the mixed-case hub name "FluSight". -/
theorem get_hub_locations_case_and_errors_witness :
    pyLower "FluSight" ∈ ["flusight", "covid", "rsv"] ∧
    (get_hub_locations "FluSight" = .ok build_hub_locations ∧
      get_hub_locations (pyLower "FluSight") = get_hub_locations "FluSight") :=
  ⟨by decide, (get_hub_locations_case_and_errors "FluSight").1 (by decide)⟩

/-- Claim C10: the three hub membership lists are equal, and consequently
`get_hub_locations` and `filter_to_hub_locations` give identical results
whichever of the three hubs is named. -/
theorem hub_lists_all_equal :
    FLUSIGHT_LOCATIONS = COVID_HUB_LOCATIONS ∧
    COVID_HUB_LOCATIONS = RSV_HUB_LOCATIONS ∧
    get_hub_locations "flusight" = get_hub_locations "covid" ∧
    get_hub_locations "covid" = get_hub_locations "rsv" ∧
    ∀ (df : DataFrame) (location_col : String),
      filter_to_hub_locations df "flusight" location_col =
        filter_to_hub_locations df "covid" location_col ∧
      filter_to_hub_locations df "covid" location_col =
        filter_to_hub_locations df "rsv" location_col := by
  refine ⟨rfl, rfl, by decide, by decide, ?_⟩
  intro df c
  have e1 : get_hub_locations "flusight" = get_hub_locations "covid" := by decide
  have e2 : get_hub_locations "covid" = get_hub_locations "rsv" := by decide
  constructor <;> simp only [filter_to_hub_locations, e1, e2]

/-- Counterexample for C8 as stated: on the input with an empty location list
and an unrecognized format, `location_lookup` raises the invalid-format
error, not the empty-input error, because the format check runs first. -/
theorem location_lookup_error_precedence_counterexample :
    location_lookup [] "bad_format" =
      .error (.invalidFormat "bad_format" ["abbr", "hubverse", "long_name"]) ∧
    location_lookup [] "bad_format" ≠ .error .emptyLocationVector := by decide

/-- Claim C8 (amended): `location_lookup` fails with the invalid-format error
whenever the format is not one of the three recognized tags (regardless of
the vector), and with the empty-input error whenever the location list is
empty and the format is recognized. -/
theorem location_lookup_error_spec :
    (∀ fmt, fmt ∉ valid_formats →
      ∀ v, location_lookup v fmt = .error (.invalidFormat fmt valid_formats)) ∧
    (∀ fmt ∈ valid_formats,
      location_lookup [] fmt = .error .emptyLocationVector) := by
  constructor
  · intro fmt h v
    have hcf : valid_formats.contains fmt = false := contains_eq_false_iff.mpr h
    simp [location_lookup, hcf]
    exact fun hm => absurd hm h
  · intro fmt h
    simp only [valid_formats, List.mem_cons, List.not_mem_nil, or_false] at h
    rcases h with rfl | rfl | rfl <;> decide

/-- Witness for C8 (amended) at format "zzz" and vector ["CA"], and at the
empty vector with format "abbr". -/
theorem location_lookup_error_spec_witness :
    ("zzz" ∉ valid_formats ∧
      location_lookup ["CA"] "zzz" =
        .error (.invalidFormat "zzz" valid_formats)) ∧
    ("abbr" ∈ valid_formats ∧
      location_lookup [] "abbr" = .error .emptyLocationVector) :=
  ⟨⟨by decide, location_lookup_error_spec.1 "zzz" (by decide) ["CA"]⟩,
   ⟨by decide, location_lookup_error_spec.2 "abbr" (by decide)⟩⟩

/-- Claim C5: for every non-empty table with the named location column and
every hub spelling that lowercases to a valid hub name,
`filter_to_hub_locations` succeeds and returns exactly the rows whose
location value is in the hub's location set, otherwise unchanged and in
order; zero matching rows yield an empty table rather than an error. -/
theorem filter_to_hub_locations_spec :
    ∀ (df : DataFrame) (hub location_col : String),
      df.is_empty = false → location_col ∈ df.cols →
      pyLower hub ∈ ["flusight", "covid", "rsv"] →
      ∃ i, colIdx df.cols location_col = some i ∧
        filter_to_hub_locations df hub location_col =
          .ok ⟨df.cols, df.rows.filter
            (fun r => build_hub_locations.contains (cellAt i r))⟩ := by
  intro df hub c hne hc hhub
  obtain ⟨i, hi⟩ := colIdx_of_mem hc
  have hcc : df.cols.contains c = true := contains_iff_mem.mpr hc
  refine ⟨i, hi, ?_⟩
  simp [filter_to_hub_locations, hne, hcc, hc, get_hub_ok hhub,
    DataFrame.filterRows, hi]

/-- Witness for C5: a table holding locations "06" and "99"; the row with
"99" (not a hub location) is dropped and the "06" row kept unchanged. -/
theorem filter_to_hub_locations_spec_witness :
    ((⟨["location", "value"], [["06", "1"], ["99", "2"]]⟩ :
        DataFrame).is_empty = false ∧
      "location" ∈ (⟨["location", "value"], [["06", "1"], ["99", "2"]]⟩ :
        DataFrame).cols ∧
      pyLower "flusight" ∈ ["flusight", "covid", "rsv"]) ∧
    ∃ i, colIdx ["location", "value"] "location" = some i ∧
      filter_to_hub_locations
          ⟨["location", "value"], [["06", "1"], ["99", "2"]]⟩
          "flusight" "location" =
        .ok ⟨["location", "value"],
          [["06", "1"], ["99", "2"]].filter
            (fun r => build_hub_locations.contains (cellAt i r))⟩ :=
  ⟨⟨by decide, by decide, by decide⟩,
   filter_to_hub_locations_spec
     ⟨["location", "value"], [["06", "1"], ["99", "2"]]⟩ "flusight" "location"
     (by decide) (by decide) (by decide)⟩

/-- A set difference with a member is not empty. -/
lemma pySetDiff_isEmpty_false {xs valid : List String} {v : String}
    (h : v ∈ pySetDiff xs valid) : (pySetDiff xs valid).isEmpty = false := by
  cases hq : (pySetDiff xs valid).isEmpty
  · rfl
  · rw [List.isEmpty_iff.mp hq] at h
    cases h

/-- Claim C6: for every non-empty table containing the named location column,
if some value of the column is outside the source representation's valid set
(abbreviations for `loc_abbr_to_hubverse_code`, codes for
`loc_hubverse_code_to_abbr`), the recode fails with the
invalid-location-values error carrying the offending column name and a
non-empty set holding exactly the column's invalid values. -/
theorem recode_invalid_values_error :
    (∀ (df : DataFrame) (location_col v : String),
      df.is_empty = false → location_col ∈ df.cols →
      v ∈ df.getColumn location_col →
      v ∉ location_table.map (·.short_name) →
      ∃ offending,
        loc_abbr_to_hubverse_code df location_col =
          .error (.invalidLocationValues location_col offending) ∧
        v ∈ offending ∧
        ∀ w ∈ offending, w ∈ df.getColumn location_col ∧
          w ∉ location_table.map (·.short_name)) ∧
    (∀ (df : DataFrame) (location_col v : String),
      df.is_empty = false → location_col ∈ df.cols →
      v ∈ df.getColumn location_col →
      v ∉ location_table.map (·.location_code) →
      ∃ offending,
        loc_hubverse_code_to_abbr df location_col =
          .error (.invalidLocationValues location_col offending) ∧
        v ∈ offending ∧
        ∀ w ∈ offending, w ∈ df.getColumn location_col ∧
          w ∉ location_table.map (·.location_code)) := by
  constructor
  all_goals {
    intro df c v hne hc hv hnv
    have hcc : df.cols.contains c = true := contains_iff_mem.mpr hc
    have hmem := mem_pySetDiff.mpr ⟨hv, contains_eq_false_iff.mpr hnv⟩
    have hie := pySetDiff_isEmpty_false hmem
    refine ⟨_, ?_, hmem, ?_⟩
    · first
      | simp [loc_abbr_to_hubverse_code, hne, hcc, hc, hie]
      | simp [loc_hubverse_code_to_abbr, hne, hcc, hc, hie]
    · intro w hw
      have h' := mem_pySetDiff.mp hw
      exact ⟨h'.1, contains_eq_false_iff.mp h'.2⟩
  }

/-- Witness for C6 on a one-row table whose location value "ZZ" is neither a
valid abbreviation nor a valid code. -/
theorem recode_invalid_values_error_witness :
    ((⟨["location"], [["ZZ"]]⟩ : DataFrame).is_empty = false ∧
      "location" ∈ (⟨["location"], [["ZZ"]]⟩ : DataFrame).cols ∧
      "ZZ" ∈ (⟨["location"], [["ZZ"]]⟩ : DataFrame).getColumn "location" ∧
      "ZZ" ∉ location_table.map (·.short_name)) ∧
    ∃ offending,
      loc_abbr_to_hubverse_code ⟨["location"], [["ZZ"]]⟩ "location" =
        .error (.invalidLocationValues "location" offending) ∧
      "ZZ" ∈ offending ∧
      ∀ w ∈ offending,
        w ∈ (⟨["location"], [["ZZ"]]⟩ : DataFrame).getColumn "location" ∧
        w ∉ location_table.map (·.short_name) :=
  ⟨⟨by decide, by decide, by decide, by decide⟩,
   recode_invalid_values_error.1 ⟨["location"], [["ZZ"]]⟩ "location" "ZZ"
     (by decide) (by decide) (by decide) (by decide)⟩

/-- Claim C7: both recode operations, when they succeed, return a table with
the same header and the same number of rows in which every column other than
the named location column is unchanged (the input itself is a value of the
pure embedding and cannot be mutated). -/
theorem recode_preserves_frame :
    ∀ (df df2 : DataFrame) (location_col : String),
      (loc_abbr_to_hubverse_code df location_col = .ok df2 ∨
        loc_hubverse_code_to_abbr df location_col = .ok df2) →
      df2.cols = df.cols ∧ df2.height = df.height ∧
      ∀ c, c ≠ location_col → df2.getColumn c = df.getColumn c := by
  intro df df2 c h
  have hrep : ∃ old new, df2 = df.replaceColumn c old new := by
    rcases h with h | h
    · exact ⟨_, _, loc_abbr_ok_inv h⟩
    · exact ⟨_, _, loc_code_ok_inv h⟩
  obtain ⟨old, new, rfl⟩ := hrep
  exact ⟨replaceColumn_cols df c old new, replaceColumn_height df c old new,
    fun c' hc' => replaceColumn_getColumn_ne df old new hc'⟩

/-- Witness for C7: recoding the location column of a two-column table leaves
the header, the height and the other column untouched. -/
theorem recode_preserves_frame_witness :
    loc_abbr_to_hubverse_code ⟨["location", "x"], [["CA", "7"]]⟩ "location" =
      .ok ⟨["location", "x"], [["06", "7"]]⟩ ∧
    ((⟨["location", "x"], [["06", "7"]]⟩ : DataFrame).cols =
        (⟨["location", "x"], [["CA", "7"]]⟩ : DataFrame).cols ∧
      (⟨["location", "x"], [["06", "7"]]⟩ : DataFrame).height =
        (⟨["location", "x"], [["CA", "7"]]⟩ : DataFrame).height ∧
      ∀ c, c ≠ "location" →
        (⟨["location", "x"], [["06", "7"]]⟩ : DataFrame).getColumn c =
          (⟨["location", "x"], [["CA", "7"]]⟩ : DataFrame).getColumn c) :=
  ⟨by decide,
   recode_preserves_frame ⟨["location", "x"], [["CA", "7"]]⟩
     ⟨["location", "x"], [["06", "7"]]⟩ "location" (Or.inl (by decide))⟩

/-- Value-level round trip over the modelled table: recoding any known
abbreviation to its code and back restores it, and the intermediate value is
a known code. -/
lemma replaceVal_roundtrip :
    ∀ v ∈ location_table.map (·.short_name),
      replaceVal (location_table.map (·.location_code))
          (location_table.map (·.short_name))
          (replaceVal (location_table.map (·.short_name))
            (location_table.map (·.location_code)) v) = v ∧
      (location_table.map (·.location_code)).contains
        (replaceVal (location_table.map (·.short_name))
          (location_table.map (·.location_code)) v) = true := by decide

/-- The empty string is not an abbreviation of the table. -/
lemma empty_not_short_name :
    "" ∉ location_table.map (·.short_name) := by decide

/-- Claim C1: for every table whose location column holds only valid
two-letter abbreviations, `loc_abbr_to_hubverse_code` succeeds, and applying
`loc_hubverse_code_to_abbr` to its result restores the original table
exactly. -/
theorem roundtrip_abbr_hubverse_abbr :
    ∀ (df : DataFrame) (location_col : String),
      df.is_empty = false → location_col ∈ df.cols →
      (∀ v ∈ df.getColumn location_col,
        v ∈ location_table.map (·.short_name)) →
      ∃ df2, loc_abbr_to_hubverse_code df location_col = .ok df2 ∧
        loc_hubverse_code_to_abbr df2 location_col = .ok df := by
  intro df c hne hc hvals
  obtain ⟨i, hi⟩ := colIdx_of_mem hc
  have hgc : df.getColumn c = df.rows.map (cellAt i) := by
    simp [DataFrame.getColumn, hi]
  have hcell : ∀ r ∈ df.rows, cellAt i r ∈ location_table.map (·.short_name) := by
    intro r hr
    exact hvals _ (by rw [hgc]; exact List.mem_map.mpr ⟨r, hr, rfl⟩)
  have hlen : ∀ r ∈ df.rows, i < r.length := by
    intro r hr
    by_contra hlt
    push_neg at hlt
    have hdef : cellAt i r = "" := List.getD_eq_default _ _ hlt
    have := hcell r hr
    rw [hdef] at this
    exact empty_not_short_name this
  have hd1 : pySetDiff (df.getColumn c) (location_table.map (·.short_name)) = [] :=
    pySetDiff_eq_nil (fun v hv => contains_iff_mem.mpr (hvals v hv))
  have h1 := loc_abbr_ok hne hc hd1
  have hdf2 : df.replaceColumn c (location_table.map (·.short_name))
      (location_table.map (·.location_code)) =
      ⟨df.cols, df.rows.map (applyAt i (replaceVal
        (location_table.map (·.short_name))
        (location_table.map (·.location_code))))⟩ := by
    simp [DataFrame.replaceColumn, hi]
  rw [hdf2] at h1
  refine ⟨_, h1, ?_⟩
  have hne2 : (⟨df.cols, df.rows.map (applyAt i (replaceVal
      (location_table.map (·.short_name))
      (location_table.map (·.location_code))))⟩ : DataFrame).is_empty = false := by
    simpa [DataFrame.is_empty, DataFrame.height] using hne
  have hgc2 : (⟨df.cols, df.rows.map (applyAt i (replaceVal
      (location_table.map (·.short_name))
      (location_table.map (·.location_code))))⟩ : DataFrame).getColumn c =
      df.rows.map (fun r => cellAt i (applyAt i (replaceVal
        (location_table.map (·.short_name))
        (location_table.map (·.location_code))) r)) := by
    simp [DataFrame.getColumn, hi, List.map_map]
  have hd2 : pySetDiff ((⟨df.cols, df.rows.map (applyAt i (replaceVal
      (location_table.map (·.short_name))
      (location_table.map (·.location_code))))⟩ : DataFrame).getColumn c)
      (location_table.map (·.location_code)) = [] := by
    apply pySetDiff_eq_nil
    rw [hgc2]
    intro v hv
    obtain ⟨r, hr, rfl⟩ := List.mem_map.mp hv
    rw [cellAt_applyAt_self _ (hlen r hr)]
    exact (replaceVal_roundtrip _ (hcell r hr)).2
  have h2 := loc_code_ok hne2 hc hd2
  rw [h2]
  congr 1
  simp only [DataFrame.replaceColumn, hi]
  refine congrArg (DataFrame.mk df.cols) ?_
  rw [List.map_map]
  have hid : ∀ r ∈ df.rows,
      (applyAt i (replaceVal (location_table.map (·.location_code))
          (location_table.map (·.short_name))) ∘
        applyAt i (replaceVal (location_table.map (·.short_name))
          (location_table.map (·.location_code)))) r = r := by
    intro r hr
    show applyAt i _ (applyAt i _ r) = r
    rw [applyAt_applyAt]
    apply applyAt_eq_self
    exact (replaceVal_roundtrip _ (hcell r hr)).1
  rw [List.map_congr_left hid, List.map_id']

/-- Witness for C1 on a three-row table of abbreviations (including the
national abbreviation "US"). -/
theorem roundtrip_abbr_hubverse_abbr_witness :
    ((⟨["location"], [["CA"], ["US"], ["TX"]]⟩ : DataFrame).is_empty = false ∧
      "location" ∈ (⟨["location"], [["CA"], ["US"], ["TX"]]⟩ : DataFrame).cols ∧
      (∀ v ∈ (⟨["location"], [["CA"], ["US"], ["TX"]]⟩ :
          DataFrame).getColumn "location",
        v ∈ location_table.map (·.short_name))) ∧
    ∃ df2, loc_abbr_to_hubverse_code
        ⟨["location"], [["CA"], ["US"], ["TX"]]⟩ "location" = .ok df2 ∧
      loc_hubverse_code_to_abbr df2 "location" =
        .ok ⟨["location"], [["CA"], ["US"], ["TX"]]⟩ :=
  ⟨⟨by decide, by decide, by decide⟩,
   roundtrip_abbr_hubverse_abbr ⟨["location"], [["CA"], ["US"], ["TX"]]⟩
     "location" (by decide) (by decide) (by decide)⟩

/-- Joining a one-column frame: the wrapping of each identifier into a
singleton row cancels, leaving a flat map over the identifiers. -/
lemma single_col_join (R : List (List String)) (ri : Nat) (v : List String) :
    (v.map (fun x => [x])).flatMap (fun lr =>
      (R.filter (fun rr => cellAt ri rr == cellAt 0 lr)).map
        (fun rr => lr ++ rr.eraseIdx ri)) =
    v.flatMap (fun loc =>
      (R.filter (fun rr => cellAt ri rr == loc)).map
        (fun rr => loc :: rr.eraseIdx ri)) := by
  rw [List.flatMap_map]
  rfl

/-- Filtering and projecting a mapped list, pushed to the underlying list. -/
lemma filter_map_generic {α β γ : Type} (l : List α) (f : α → β) (p : β → Bool)
    (g : β → γ) :
    ((l.map f).filter p).map g =
      (l.filter (fun a => p (f a))).map (fun a => g (f a)) := by
  rw [List.filter_map, List.map_map]
  rfl

/-- Claim C3: for every non-empty identifier list in a recognized format,
`location_lookup` succeeds and returns, identifier by identifier in input
order, exactly the location-table rows whose resolved column matches the
identifier: unmatched identifiers contribute no rows (silently dropped) and
repeated identifiers contribute repeated rows. -/
theorem location_lookup_inner_join :
    ∀ (location_vector : List String) (location_format : String),
      location_vector ≠ [] → location_format ∈ valid_formats →
      ∃ jk, to_location_table_column location_format = .ok jk ∧
        location_lookup location_vector location_format =
          .ok ⟨lookupResultCols jk,
            location_vector.flatMap (fun loc =>
              (location_table.filter (fun r => recordField r jk == loc)).map
                (lookupRow jk loc))⟩ := by
  intro v fmt hv hfmt
  obtain ⟨a, as, rfl⟩ : ∃ a as, v = a :: as := by
    cases v with
    | nil => exact absurd rfl hv
    | cons a as => exact ⟨a, as, rfl⟩
  simp only [valid_formats, List.mem_cons, List.not_mem_nil, or_false] at hfmt
  rcases hfmt with rfl | rfl | rfl
  · refine ⟨"short_name", by decide, ?_⟩
    have h1 : location_lookup (a :: as) "abbr" =
        .ok (innerJoin ⟨["short_name"], (a :: as).map (fun x => [x])⟩
          locationTableDF "short_name") := rfl
    have h2 : innerJoin ⟨["short_name"], (a :: as).map (fun x => [x])⟩
        locationTableDF "short_name" =
        ⟨lookupResultCols "short_name",
         ((a :: as).map (fun x => [x])).flatMap (fun lr =>
           ((location_table.map (fun r => tableColumns.map (recordField r))).filter
             (fun rr => cellAt 1 rr == cellAt 0 lr)).map
               (fun rr => lr ++ rr.eraseIdx 1))⟩ := rfl
    rw [h1, h2, single_col_join]
    simp only [filter_map_generic]
    rfl
  · refine ⟨"location_code", by decide, ?_⟩
    have h1 : location_lookup (a :: as) "hubverse" =
        .ok (innerJoin ⟨["location_code"], (a :: as).map (fun x => [x])⟩
          locationTableDF "location_code") := rfl
    have h2 : innerJoin ⟨["location_code"], (a :: as).map (fun x => [x])⟩
        locationTableDF "location_code" =
        ⟨lookupResultCols "location_code",
         ((a :: as).map (fun x => [x])).flatMap (fun lr =>
           ((location_table.map (fun r => tableColumns.map (recordField r))).filter
             (fun rr => cellAt 0 rr == cellAt 0 lr)).map
               (fun rr => lr ++ rr.eraseIdx 0))⟩ := rfl
    rw [h1, h2, single_col_join]
    simp only [filter_map_generic]
    rfl
  · refine ⟨"long_name", by decide, ?_⟩
    have h1 : location_lookup (a :: as) "long_name" =
        .ok (innerJoin ⟨["long_name"], (a :: as).map (fun x => [x])⟩
          locationTableDF "long_name") := rfl
    have h2 : innerJoin ⟨["long_name"], (a :: as).map (fun x => [x])⟩
        locationTableDF "long_name" =
        ⟨lookupResultCols "long_name",
         ((a :: as).map (fun x => [x])).flatMap (fun lr =>
           ((location_table.map (fun r => tableColumns.map (recordField r))).filter
             (fun rr => cellAt 2 rr == cellAt 0 lr)).map
               (fun rr => lr ++ rr.eraseIdx 2))⟩ := rfl
    rw [h1, h2, single_col_join]
    simp only [filter_map_generic]
    rfl

/-- Witness for C3 at the spec's scenario input: looking up the invalid
abbreviation "XX" yields an empty table rather than an error. -/
theorem location_lookup_inner_join_witness :
    (["XX"] ≠ ([] : List String) ∧ "abbr" ∈ valid_formats) ∧
    ∃ jk, to_location_table_column "abbr" = .ok jk ∧
      location_lookup ["XX"] "abbr" =
        .ok ⟨lookupResultCols jk,
          ["XX"].flatMap (fun loc =>
            (location_table.filter (fun r => recordField r jk == loc)).map
              (lookupRow jk loc))⟩ :=
  ⟨⟨by decide, by decide⟩,
   location_lookup_inner_join ["XX"] "abbr" (by decide) (by decide)⟩
